import Mathlib

/-!
# Shallow embedding of the surf-forecast board-recommendation engine

This file embeds the scoring/ranking core of `surfline_forecast.py`:

* `BoardQuiver.recommend_board` — the scoring engine (wave/period/wind rules,
  spot bonuses, construction bonuses, board-type bonuses, stable descending
  sort by score);
* `SurflineForecast.parse_conditions` — extraction of a conditions record from
  the three provider payloads (wave / wind / tide);
* `SurflineAPI.get_spot_info` — spot lookup by normalized name.

Python numbers (floats used only at values such as 3, 2, 1, 0.5, 1.5 and
averages of inputs) are modelled as `ℚ`.  Python dictionaries with a fixed
set of keys become structures; a key that the code reads with `.get` (so it
may be absent) becomes an `Option` field; a dictionary used as a lookup table
becomes an association list `List (String × _)` whose lookup is first-match
(`lookupKey`), matching a Python dict in which every key occurs once.
An absent payload / record (`None`, or the empty-dict fallback `{}` used for a
construction that resolves to nothing) is `none`.
-/

/-- First-match lookup in an association list, modelling `dict.get(key)`. -/
def lookupKey {β : Type} (k : String) : List (String × β) → Option β
  | [] => none
  | (k', v) :: rest => if k' = k then some v else lookupKey k rest

/-- A construction record (`board_constructions.json` entry).  The scoring
code reads exactly these four keys with `.get`, so each is optional. -/
structure Construction where
  small_wave_performance : Option String
  powerful_wave_performance : Option String
  paddle_power : Option String
  flex : Option String
deriving DecidableEq, Repr

/-- The built-in default "pu" entry returned by `_load_constructions` when the
constructions file is missing (only the four scored keys are modelled). -/
def defaultPu : Construction :=
  { small_wave_performance := some "good"
    powerful_wave_performance := some "excellent"
    paddle_power := some "medium"
    flex := some "high" }

/-- The `characteristics` sub-dictionary of a spot record; the scoring code
reads `wave_quality` and `skill_level` with `.get`. -/
structure Characteristics where
  wave_quality : Option String
  skill_level : Option String
deriving DecidableEq, Repr

/-- A spot record (`surf_spots.json` entry).  Only the fields the embedded
functions read are modelled; `type` and `characteristics` are read with
`.get` / `in`-tests, so they are optional. -/
structure Spot where
  name : String
  type : Option String
  characteristics : Option Characteristics
deriving DecidableEq, Repr

/-- A board record (`my_boards.json` entry); only the fields the scoring code
reads.  `construction` is read with `board.get("construction", "pu")`. -/
structure Board where
  name : String
  type : String
  volume : ℚ
  ideal_wave_range : ℚ × ℚ
  ideal_period_range : ℚ × ℚ
  construction : Option String
deriving DecidableEq, Repr

/-- One entry of the list returned by `recommend_board`. -/
structure Recommendation where
  board : Board
  construction_info : Option Construction
  construction_type : String
  score : ℚ
  reasoning : List String
deriving DecidableEq, Repr

/-- `self.construction_properties.get(construction_type,
self.construction_properties.get("pu", {}))`: the table entry for the board's
construction key, else the "pu" entry, else the empty dict (`none`). -/
def resolveConstruction (ctable : List (String × Construction))
    (construction_type : String) : Option Construction :=
  match lookupKey construction_type ctable with
  | some c => some c
  | none => lookupKey "pu" ctable

/-- Wave-height scoring block of `recommend_board` (score added, reasoning
appended). -/
def waveRule (board : Board) (wave_height : ℚ) : ℚ × List String :=
  let min_wave := board.ideal_wave_range.1
  let max_wave := board.ideal_wave_range.2
  if min_wave ≤ wave_height ∧ wave_height ≤ max_wave then
    (3, ["Perfect wave size (" ++ toString wave_height ++ "ft in " ++
      toString min_wave ++ "-" ++ toString max_wave ++ "ft range)"])
  else if wave_height < min_wave then
    (max 0 (2 - (min_wave - wave_height)),
      ["Below ideal size (" ++ toString wave_height ++ "ft vs " ++
        toString min_wave ++ "ft+ ideal)"])
  else
    (max 0 (2 - (wave_height - max_wave)),
      ["Above ideal size (" ++ toString wave_height ++ "ft vs " ++
        toString max_wave ++ "ft max)"])

/-- Period scoring block of `recommend_board`. -/
def periodRule (board : Board) (period : ℚ) : ℚ × List String :=
  let min_period := board.ideal_period_range.1
  let max_period := board.ideal_period_range.2
  if min_period ≤ period ∧ period ≤ max_period then
    (2, ["Good period (" ++ toString period ++ "s in " ++
      toString min_period ++ "-" ++ toString max_period ++ "s range)"])
  else
    (max 0 (1 - |period - (min_period + max_period) / 2| / 5),
      ["Period okay (" ++ toString period ++ "s vs " ++
        toString min_period ++ "-" ++ toString max_period ++ "s ideal)"])

/-- Wind scoring block of `recommend_board` (lower is better). -/
def windRule (wind_speed : ℚ) : ℚ × List String :=
  if wind_speed < 10 then (1, ["Clean conditions"])
  else if wind_speed < 15 then (1 / 2, ["Slightly windy"])
  else (0, ["Windy conditions"])

/-- Spot-specific scoring block of `recommend_board` (runs only when
`spot_info` is present and has a `characteristics` key). -/
def spotRule (board : Board) (wave_height period : ℚ)
    (spot_info : Option Spot) : ℚ × List String :=
  match spot_info with
  | none => (0, [])
  | some si =>
    match si.characteristics with
    | none => (0, [])
    | some characteristics =>
      let spot_type := si.type.getD "unknown"
      let br :=
        if spot_type = "beach_break" then
          if board.type = "fish/hybrid" ∨ board.type = "longboard" then
            ((1 : ℚ) / 2, ["Great for beach breaks"])
          else (0, [])
        else if spot_type = "reef_break" ∨ spot_type = "point_break" then
          if board.type = "performance_shortboard" ∧ period > 12 then
            ((1 : ℚ), ["Performance board ideal for reef breaks"])
          else if board.type = "gun" ∧ wave_height > 6 then
            ((3 : ℚ) / 2, ["Gun perfect for big reef waves"])
          else (0, [])
        else (0, [])
      let wave_quality := characteristics.wave_quality.getD "unknown"
      let wq :=
        if wave_quality = "forgiving" ∧
            (board.type = "fish/hybrid" ∨ board.type = "longboard") then
          ((1 : ℚ) / 2, ["Forgiving waves suit this board type"])
        else if (wave_quality = "excellent" ∨ wave_quality = "challenging") ∧
            board.type = "performance_shortboard" then
          ((1 : ℚ) / 2, ["High-performance board for quality waves"])
        else (0, [])
      let skill_level := characteristics.skill_level.getD "unknown"
      let sk :=
        if skill_level = "beginner_friendly" ∧ board.volume > 35 then
          ((1 : ℚ) / 2, ["Extra volume good for forgiving spots"])
        else if skill_level = "advanced" ∧ board.volume < 35 then
          ((1 : ℚ) / 2, ["Lower volume suits advanced breaks"])
        else (0, [])
      (br.1 + wq.1 + sk.1, br.2 ++ wq.2 ++ sk.2)

/-- Construction-based scoring block of `recommend_board` (runs only when the
resolved construction dictionary is non-empty, i.e. `if construction:`). -/
def constructionRule (construction_type : String)
    (construction : Option Construction) (wave_height period : ℚ) :
    ℚ × List String :=
  match construction with
  | none => (0, [])
  | some c =>
    let sw :=
      if wave_height < 3 ∧ c.small_wave_performance = some "excellent" then
        ((1 : ℚ), [construction_type ++ " construction excels in small waves"])
      else (0, [])
    let pw :=
      if period > 13 ∧ c.powerful_wave_performance = some "excellent" then
        ((1 : ℚ), [construction_type ++ " construction handles power well"])
      else (0, [])
    let pp :=
      if wave_height < 3 ∧ period < 10 ∧
          (c.paddle_power = some "high" ∨ c.paddle_power = some "excellent") then
        ((1 : ℚ) / 2, [construction_type ++ " gives extra paddle power"])
      else (0, [])
    let fl :=
      if period > 12 ∧ (c.flex = some "high" ∨ c.flex = some "medium-high") then
        ((1 : ℚ) / 2, [construction_type ++ " provides responsive feel"])
      else (0, [])
    (sw.1 + pw.1 + pp.1 + fl.1, sw.2 ++ pw.2 ++ pp.2 ++ fl.2)

/-- Board-type specific scoring block of `recommend_board` (an
`if`/`elif`/`elif` chain, so at most one bonus fires). -/
def typeRule (board : Board) (wave_height period : ℚ) : ℚ × List String :=
  if board.type = "fish/hybrid" ∧ wave_height < 3 then
    ((1 : ℚ), ["Fish design excels in small waves"])
  else if board.type = "performance_shortboard" ∧ period > 12 then
    ((1 : ℚ), ["Performance board great for powerful waves"])
  else if board.type = "twin_fin" ∧ 3 ≤ wave_height ∧ wave_height ≤ 5 then
    ((1 : ℚ) / 2, ["Twin fin sweet spot conditions"])
  else (0, [])

/-- The body of the `for board in self.boards` loop of `recommend_board`:
score a single board and collect its reasoning, in source order. -/
def scoreBoard (ctable : List (String × Construction))
    (wave_height period wind_speed : ℚ) (spot_info : Option Spot)
    (board : Board) : Recommendation :=
  let construction_type := board.construction.getD "pu"
  let construction := resolveConstruction ctable construction_type
  let w := waveRule board wave_height
  let pe := periodRule board period
  let wi := windRule wind_speed
  let sp := spotRule board wave_height period spot_info
  let co := constructionRule construction_type construction wave_height period
  let ty := typeRule board wave_height period
  { board := board
    construction_info := construction
    construction_type := construction_type
    score := w.1 + pe.1 + wi.1 + sp.1 + co.1 + ty.1
    reasoning := w.2 ++ pe.2 ++ wi.2 ++ sp.2 ++ co.2 ++ ty.2 }

/-- `BoardQuiver.recommend_board`: score every board, then
`scores.sort(key=lambda x: x["score"], reverse=True)` — a stable descending
sort by score (modelled by the stable `List.mergeSort` with the
`b.score ≤ a.score` comparison). -/
def recommend_board (boards : List Board)
    (ctable : List (String × Construction))
    (wave_height period wind_speed : ℚ) (spot_info : Option Spot) :
    List Recommendation :=
  (boards.map (scoreBoard ctable wave_height period wind_speed spot_info)).mergeSort
    (fun a b => decide (b.score ≤ a.score))

/-! ## Conditions parsing (`SurflineForecast.parse_conditions`)

The wave payload path read by the code is
`wave_data['data']['wave'][0]`, then `['surf']['min']`/`['surf']['max']`,
then `.get('swells', [{}])[0].get('period', 0)`; the wind path is
`wind_data['data']['wind'][0]` (only when `wind_data` is truthy);
the tide payload is only tested with `tide_data and 'data' in tide_data`.
A missing key / empty list along an indexed path raises
`KeyError`/`IndexError`, which the `except` clause turns into `None`
(`none` here).  Optional fields model possibly-missing keys, and the outer
`Option` on each payload models an absent (`None`) payload. -/

/-- One entry of a wave time-step's `swells` list. -/
structure SwellEntry where
  period : Option ℚ
deriving DecidableEq, Repr

/-- The `surf` sub-dictionary of a wave time-step. -/
structure SurfRange where
  min : ℚ
  max : ℚ
deriving DecidableEq, Repr

/-- One wave time-step: `surf` is accessed by key (may be missing), `swells`
is read with `.get('swells', [{}])` (may be missing, and may be empty). -/
structure WaveTimestep where
  surf : Option SurfRange
  swells : Option (List SwellEntry)
deriving DecidableEq, Repr

/-- The wave payload; `wave := none` models a payload without the
`['data']['wave']` path. -/
structure WavePayload where
  wave : Option (List WaveTimestep)
deriving DecidableEq, Repr

/-- One wind time-step; `speed` and `direction` are read with `.get(_, 0)`. -/
structure WindTimestep where
  speed : Option ℚ
  direction : Option ℚ
deriving DecidableEq, Repr

/-- The wind payload; `wind := none` models a payload without the
`['data']['wind']` path. -/
structure WindPayload where
  wind : Option (List WindTimestep)
deriving DecidableEq, Repr

/-- The tide payload; only the presence of its `data` key matters. -/
structure TidePayload where
  hasData : Bool
deriving DecidableEq, Repr

/-- The conditions record built by `parse_conditions` (the wall-clock
`timestamp` field is outside the model). -/
structure Conditions where
  wave_height : ℚ
  period : ℚ
  wind_speed : ℚ
  wind_direction : ℚ
  tide : String
deriving DecidableEq, Repr

/-- `tide_info = "N/A"; if tide_data and 'data' in tide_data: "Available"`. -/
def tideFlag (tide_data : Option TidePayload) : String :=
  match tide_data with
  | some t => if t.hasData then "Available" else "N/A"
  | none => "N/A"

/-- `SurflineForecast.parse_conditions`.  Every raising access on the
traced paths becomes a `none`-producing branch (the `except (KeyError,
IndexError, TypeError)` handler returns `None`). -/
def parse_conditions (wave_data : Option WavePayload)
    (wind_data : Option WindPayload) (tide_data : Option TidePayload) :
    Option Conditions :=
  match wave_data with
  | none => none
  | some wd =>
    match wd.wave with
    | none => none
    | some [] => none
    | some (current_wave :: _) =>
      match current_wave.surf with
      | none => none
      | some surf =>
        let wave_height := (surf.min + surf.max) / 2
        match current_wave.swells.getD [{ period := none }] with
        | [] => none
        | first_swell :: _ =>
          let period := first_swell.period.getD 0
          match wind_data with
          | none =>
            some { wave_height := wave_height, period := period,
                   wind_speed := 0, wind_direction := 0,
                   tide := tideFlag tide_data }
          | some w =>
            match w.wind with
            | none => none
            | some [] => none
            | some (current_wind :: _) =>
              some { wave_height := wave_height, period := period,
                     wind_speed := current_wind.speed.getD 0,
                     wind_direction := current_wind.direction.getD 0,
                     tide := tideFlag tide_data }

/-- The wave payload is absent or malformed: any shape on which the wave
part of `parse_conditions` raises (absent payload, missing
`['data']['wave']` path, empty wave list, missing `surf`, or a present but
empty `swells` list). -/
def waveMalformed (wave_data : Option WavePayload) : Bool :=
  match wave_data with
  | none => true
  | some wd =>
    match wd.wave with
    | none => true
    | some [] => true
    | some (current_wave :: _) =>
      match current_wave.surf with
      | none => true
      | some _ =>
        match current_wave.swells with
        | some [] => true
        | _ => false

/-- The wind payload is present but malformed: `wind_data['data']['wind'][0]`
raises (missing path or empty wind list).  An absent payload is not
malformed — the code then uses the empty dict. -/
def windMalformed (wind_data : Option WindPayload) : Bool :=
  match wind_data with
  | none => false
  | some w =>
    match w.wind with
    | none => true
    | some [] => true
    | some (_ :: _) => false

/-- Period of the first swell entry as the code computes it:
`current_wave.get('swells', [{}])[0].get('period', 0)` (assuming the swells
list is non-empty when present). -/
def firstSwellPeriod (current_wave : WaveTimestep) : ℚ :=
  match current_wave.swells with
  | none => 0
  | some [] => 0
  | some (first_swell :: _) => first_swell.period.getD 0

/-- Wind speed as the code computes it when the wind payload does not raise. -/
def firstWindSpeed (wind_data : Option WindPayload) : ℚ :=
  match wind_data with
  | none => 0
  | some w =>
    match w.wind with
    | some (current_wind :: _) => current_wind.speed.getD 0
    | _ => 0

/-- Wind direction as the code computes it when the wind payload does not
raise. -/
def firstWindDirection (wind_data : Option WindPayload) : ℚ :=
  match wind_data with
  | none => 0
  | some w =>
    match w.wind with
    | some (current_wind :: _) => current_wind.direction.getD 0
    | _ => 0

/-! ## Spot lookup (`SurflineAPI.get_spot_info`)

`self.spots` is the dict built by `_load_surf_spots`; it is modelled as an
association list with first-match lookup.  The "available spots" message on a
miss prints `', '.join(list(set(available_spots))[:10])`; `list(set(...))`
enumerates the distinct names in an unspecified order, determinised here as
`List.dedup` (first occurrences kept). -/

/-- `spot_name.lower().replace(" ", "_").replace("-", "_")`. -/
def normalize_spot_name (spot_name : String) : String :=
  ((spot_name.toLower).replace " " "_").replace "-" "_"

/-- `SurflineAPI.get_spot_info`: lookup under the normalized key, falling
back to the raw lowercase key (`or`); `none` is the not-found signal. -/
def get_spot_info (spots : List (String × Spot)) (spot_name : String) :
    Option Spot :=
  match lookupKey (normalize_spot_name spot_name) spots with
  | some s => some s
  | none => lookupKey (spot_name.toLower) spots

/-- The spot names offered as guidance on a lookup miss: the distinct names
of the table's records, truncated to 10. -/
def availableSpotNames (spots : List (String × Spot)) : List String :=
  ((spots.map (fun kv => kv.2.name)).dedup).take 10

/-! ## Concrete data used by witnesses and counterexamples -/

/-- The scenario board of the spec's §8 (`ideal_wave_range=[2,4]`,
`ideal_period_range=[10,14]`, construction `"pu"`). -/
def sampleBoard : Board where
  name := "daily driver"
  type := "hybrid"
  volume := 32
  ideal_wave_range := (2, 4)
  ideal_period_range := (10, 14)
  construction := some "pu"

/-- A fish board whose ideal ranges sit in small, short-period surf. -/
def fishBoard : Board where
  name := "small wave fish"
  type := "fish/hybrid"
  volume := 30
  ideal_wave_range := (1, 3)
  ideal_period_range := (8, 10)
  construction := none

/-- A construction table holding only the built-in `"pu"` entry. -/
def sampleCtable : List (String × Construction) := [("pu", defaultPu)]

/-- A spot record for witnesses. -/
def lindaMar : Spot where
  name := "Linda Mar"
  type := some "beach_break"
  characteristics := none

/-- A spot table as `_load_surf_spots` would build it: one entry under the
normalized name and one under the raw lowercase name. -/
def sampleSpots : List (String × Spot) :=
  [(normalize_spot_name "Linda Mar", lindaMar), ("Linda Mar".toLower, lindaMar)]

/-- A well-formed wave time-step: surf 2–4 ft, one swell of period 12 s. -/
def goodWaveStep : WaveTimestep where
  surf := some { min := 2, max := 4 }
  swells := some [{ period := some 12 }]

/-- A well-formed wave payload. -/
def goodWavePayload : WavePayload where
  wave := some [goodWaveStep]

/-- A present but malformed wind payload: `['data']['wind']` is an empty
list, so `[0]` raises `IndexError`. -/
def badWindPayload : WindPayload where
  wind := some []

/-! ## Helper lemmas -/

theorem scoreBoard_score (ctable : List (String × Construction))
    (wave_height period wind_speed : ℚ) (spot_info : Option Spot) (b : Board) :
    (scoreBoard ctable wave_height period wind_speed spot_info b).score =
      (waveRule b wave_height).1 + (periodRule b period).1 +
      (windRule wind_speed).1 + (spotRule b wave_height period spot_info).1 +
      (constructionRule (b.construction.getD "pu")
        (resolveConstruction ctable (b.construction.getD "pu"))
        wave_height period).1 +
      (typeRule b wave_height period).1 := rfl

theorem scoreBoard_reasoning (ctable : List (String × Construction))
    (wave_height period wind_speed : ℚ) (spot_info : Option Spot) (b : Board) :
    (scoreBoard ctable wave_height period wind_speed spot_info b).reasoning =
      (waveRule b wave_height).2 ++ (periodRule b period).2 ++
      (windRule wind_speed).2 ++ (spotRule b wave_height period spot_info).2 ++
      (constructionRule (b.construction.getD "pu")
        (resolveConstruction ctable (b.construction.getD "pu"))
        wave_height period).2 ++
      (typeRule b wave_height period).2 := rfl

theorem waveRule_fst_nonneg (b : Board) (wave_height : ℚ) :
    0 ≤ (waveRule b wave_height).1 := by
  simp only [waveRule]
  split_ifs <;> norm_num

theorem periodRule_fst_nonneg (b : Board) (period : ℚ) :
    0 ≤ (periodRule b period).1 := by
  simp only [periodRule]
  split_ifs <;> norm_num

theorem windRule_fst_nonneg (wind_speed : ℚ) : 0 ≤ (windRule wind_speed).1 := by
  simp only [windRule]
  split_ifs <;> norm_num

theorem spotRule_fst_nonneg (b : Board) (wave_height period : ℚ)
    (spot_info : Option Spot) : 0 ≤ (spotRule b wave_height period spot_info).1 := by
  rcases spot_info with _ | ⟨nm, ty, _ | ch⟩
  · norm_num [spotRule]
  · norm_num [spotRule]
  · simp only [spotRule]
    split_ifs <;> norm_num

theorem constructionRule_fst_nonneg (construction_type : String)
    (construction : Option Construction) (wave_height period : ℚ) :
    0 ≤ (constructionRule construction_type construction wave_height period).1 := by
  rcases construction with _ | c
  · norm_num [constructionRule]
  · simp only [constructionRule]
    split_ifs <;> norm_num

theorem typeRule_fst_nonneg (b : Board) (wave_height period : ℚ) :
    0 ≤ (typeRule b wave_height period).1 := by
  simp only [typeRule]
  split_ifs <;> norm_num

theorem waveRule_reason_length (b : Board) (wave_height : ℚ) :
    (waveRule b wave_height).2.length = 1 := by
  simp only [waveRule]
  split_ifs <;> rfl

theorem periodRule_reason_length (b : Board) (period : ℚ) :
    (periodRule b period).2.length = 1 := by
  simp only [periodRule]
  split_ifs <;> rfl

theorem windRule_reason_length (wind_speed : ℚ) :
    (windRule wind_speed).2.length = 1 := by
  simp only [windRule]
  split_ifs <;> rfl

theorem windRule_ge15 (wind_speed : ℚ) (h : 15 ≤ wind_speed) :
    windRule wind_speed = (0, ["Windy conditions"]) := by
  simp only [windRule]
  rw [if_neg (by linarith), if_neg (by linarith)]

theorem waveRule_in_range (b : Board) (wave_height : ℚ)
    (h1 : b.ideal_wave_range.1 ≤ wave_height)
    (h2 : wave_height ≤ b.ideal_wave_range.2) :
    (waveRule b wave_height).1 = 3 := by
  simp only [waveRule]
  rw [if_pos ⟨h1, h2⟩]

theorem periodRule_in_range (b : Board) (period : ℚ)
    (h1 : b.ideal_period_range.1 ≤ period)
    (h2 : period ≤ b.ideal_period_range.2) :
    (periodRule b period).1 = 2 := by
  simp only [periodRule]
  rw [if_pos ⟨h1, h2⟩]

theorem constructionRule_eq_zero (construction_type : String) (c : Construction)
    (wave_height period : ℚ)
    (h1 : ¬(wave_height < 3 ∧ c.small_wave_performance = some "excellent"))
    (h2 : ¬(period > 13 ∧ c.powerful_wave_performance = some "excellent"))
    (h3 : ¬(wave_height < 3 ∧ period < 10 ∧
      (c.paddle_power = some "high" ∨ c.paddle_power = some "excellent")))
    (h4 : ¬(period > 12 ∧ (c.flex = some "high" ∨ c.flex = some "medium-high"))) :
    (constructionRule construction_type (some c) wave_height period).1 = 0 := by
  simp only [constructionRule]
  rw [if_neg h1, if_neg h2, if_neg h3, if_neg h4]
  norm_num

theorem typeRule_eq_zero (b : Board) (wave_height period : ℚ)
    (h1 : ¬(b.type = "fish/hybrid" ∧ wave_height < 3))
    (h2 : ¬(b.type = "performance_shortboard" ∧ period > 12))
    (h3 : ¬(b.type = "twin_fin" ∧ 3 ≤ wave_height ∧ wave_height ≤ 5)) :
    (typeRule b wave_height period).1 = 0 := by
  simp only [typeRule]
  rw [if_neg h1, if_neg h2, if_neg h3]

theorem scoreBoard_construction_info (ctable : List (String × Construction))
    (wave_height period wind_speed : ℚ) (spot_info : Option Spot) (b : Board) :
    (scoreBoard ctable wave_height period wind_speed spot_info b).construction_info =
      resolveConstruction ctable (b.construction.getD "pu") := rfl

theorem scoreBoard_construction_type (ctable : List (String × Construction))
    (wave_height period wind_speed : ℚ) (spot_info : Option Spot) (b : Board) :
    (scoreBoard ctable wave_height period wind_speed spot_info b).construction_type =
      b.construction.getD "pu" := rfl

/-! ## Claims -/

/-- C5: for every board with ideal wave range `[min_wave, max_wave]` and
every `wave_height`, the wave-height contribution is exactly 3 when
`min_wave ≤ wave_height ≤ max_wave` (inclusive), and otherwise exactly
`max(0, 2 - d)` where `d` is the shortfall below the minimum or the excess
above the maximum. -/
theorem wave_rule_cases (b : Board) (wave_height : ℚ) :
    (b.ideal_wave_range.1 ≤ wave_height → wave_height ≤ b.ideal_wave_range.2 →
      (waveRule b wave_height).1 = 3)
    ∧ (wave_height < b.ideal_wave_range.1 →
      (waveRule b wave_height).1 =
        max 0 (2 - (b.ideal_wave_range.1 - wave_height)))
    ∧ (b.ideal_wave_range.1 ≤ wave_height →
      b.ideal_wave_range.2 < wave_height →
      (waveRule b wave_height).1 =
        max 0 (2 - (wave_height - b.ideal_wave_range.2))) := by
  refine ⟨fun h1 h2 => ?_, fun h => ?_, fun h1 h2 => ?_⟩ <;> simp only [waveRule]
  · rw [if_pos ⟨h1, h2⟩]
  · have hni : ¬(b.ideal_wave_range.1 ≤ wave_height ∧
        wave_height ≤ b.ideal_wave_range.2) := by
      rintro ⟨hc, -⟩
      linarith
    rw [if_neg hni, if_pos h]
  · have hni : ¬(b.ideal_wave_range.1 ≤ wave_height ∧
        wave_height ≤ b.ideal_wave_range.2) := by
      rintro ⟨-, hc⟩
      linarith
    rw [if_neg hni, if_neg (not_lt.mpr h1)]

/-- C5 witness: the sample board at 3 ft (inside its 2–4 ft range) earns the
full 3 wave points, and at 6 ft (above the range) earns
`max(0, 2 - (6 - 4)) = 0`. -/
theorem wave_rule_cases_witness :
    (waveRule sampleBoard 3).1 = 3
    ∧ (waveRule sampleBoard 6).1 = max 0 (2 - ((6 : ℚ) - 4)) := by
  constructor
  · exact (wave_rule_cases sampleBoard 3).1 (by norm_num [sampleBoard])
      (by norm_num [sampleBoard])
  · exact (wave_rule_cases sampleBoard 6).2.2 (by norm_num [sampleBoard])
      (by norm_num [sampleBoard])

/-- C6: for every board with ideal period range `[min_period, max_period]`
and every `period`, the period contribution is exactly 2 when the period is
inside the range (inclusive), and otherwise exactly
`max(0, 1 - |period - midpoint| / 5)` with midpoint the mean of the bounds. -/
theorem period_rule_cases (b : Board) (period : ℚ) :
    (b.ideal_period_range.1 ≤ period → period ≤ b.ideal_period_range.2 →
      (periodRule b period).1 = 2)
    ∧ (¬(b.ideal_period_range.1 ≤ period ∧ period ≤ b.ideal_period_range.2) →
      (periodRule b period).1 =
        max 0 (1 - |period -
          (b.ideal_period_range.1 + b.ideal_period_range.2) / 2| / 5)) := by
  refine ⟨fun h1 h2 => ?_, fun h => ?_⟩ <;> simp only [periodRule]
  · rw [if_pos ⟨h1, h2⟩]
  · rw [if_neg h]

/-- C6 witness: the sample board with period 12 (inside 10–14) earns the
full 2 period points, and with period 20 earns
`max(0, 1 - |20 - 12| / 5) = 0`. -/
theorem period_rule_cases_witness :
    (periodRule sampleBoard 12).1 = 2
    ∧ (periodRule sampleBoard 20).1 = max 0 (1 - |(20 : ℚ) - (10 + 14) / 2| / 5) := by
  constructor
  · exact (period_rule_cases sampleBoard 12).1 (by norm_num [sampleBoard])
      (by norm_num [sampleBoard])
  · have h := (period_rule_cases sampleBoard 20).2 (by norm_num [sampleBoard])
    simpa [sampleBoard] using h

/-- C4: for every board and every `wind_speed`, the wind contribution is a
step function — exactly 1 below 10, exactly 1/2 in [10, 15), exactly 0 at
15 and above — and in every case one wind reasoning string is appended to
the board's reasoning; the score depends on `wind_speed` only through this
contribution. -/
theorem wind_rule_step (wind_speed : ℚ) (ctable : List (String × Construction))
    (wave_height period : ℚ) (spot_info : Option Spot) (b : Board) :
    ((wind_speed < 10 → (windRule wind_speed).1 = 1 ∧
      "Clean conditions" ∈
        (scoreBoard ctable wave_height period wind_speed spot_info b).reasoning)
    ∧ (10 ≤ wind_speed → wind_speed < 15 → (windRule wind_speed).1 = 1 / 2 ∧
      "Slightly windy" ∈
        (scoreBoard ctable wave_height period wind_speed spot_info b).reasoning)
    ∧ (15 ≤ wind_speed → (windRule wind_speed).1 = 0 ∧
      "Windy conditions" ∈
        (scoreBoard ctable wave_height period wind_speed spot_info b).reasoning))
    ∧ (scoreBoard ctable wave_height period wind_speed spot_info b).score =
      (scoreBoard ctable wave_height period 20 spot_info b).score +
        (windRule wind_speed).1 := by
  have hmem : ∀ s ∈ (windRule wind_speed).2,
      s ∈ (scoreBoard ctable wave_height period wind_speed spot_info b).reasoning := by
    intro s hs
    rw [scoreBoard_reasoning]
    simp only [List.mem_append]
    tauto
  refine ⟨⟨fun h => ?_, fun h1 h2 => ?_, fun h => ?_⟩, ?_⟩
  · have he : windRule wind_speed = (1, ["Clean conditions"]) := by
      simp only [windRule]
      rw [if_pos h]
    exact ⟨by rw [he], hmem _ (by rw [he]; exact List.mem_singleton_self _)⟩
  · have he : windRule wind_speed = (1 / 2, ["Slightly windy"]) := by
      simp only [windRule]
      rw [if_neg (not_lt.mpr h1), if_pos h2]
    exact ⟨by rw [he], hmem _ (by rw [he]; exact List.mem_singleton_self _)⟩
  · have he := windRule_ge15 wind_speed h
    exact ⟨by rw [he], hmem _ (by rw [he]; exact List.mem_singleton_self _)⟩
  · rw [scoreBoard_score, scoreBoard_score, windRule_ge15 20 (by norm_num)]
    ring

/-- C4 witness: at wind speeds 9, 12 and 20 the contribution is 1, 1/2 and 0
respectively, each with its reasoning string. -/
theorem wind_rule_step_witness :
    ((windRule 9).1 = 1 ∧
      "Clean conditions" ∈ (scoreBoard sampleCtable 3 12 9 none sampleBoard).reasoning)
    ∧ ((windRule 12).1 = 1 / 2 ∧
      "Slightly windy" ∈ (scoreBoard sampleCtable 3 12 12 none sampleBoard).reasoning)
    ∧ ((windRule 20).1 = 0 ∧
      "Windy conditions" ∈ (scoreBoard sampleCtable 3 12 20 none sampleBoard).reasoning) :=
  ⟨(wind_rule_step 9 sampleCtable 3 12 none sampleBoard).1.1 (by norm_num),
   (wind_rule_step 12 sampleCtable 3 12 none sampleBoard).1.2.1 (by norm_num) (by norm_num),
   (wind_rule_step 20 sampleCtable 3 12 none sampleBoard).1.2.2 (by norm_num)⟩

/-- C1 counterexample to the claim as stated: `fishBoard` at 2 ft / 9 s with
wind 20 has both query values inside its ideal ranges, its construction
resolves to nothing (so no construction bonus can fire), and spot metadata
is absent — yet its score is 6, not `3 + 2 + wind_bonus = 5`, because the
board-type rule adds 1 for a fish in waves under 3 ft. -/
theorem full_fit_claim_counterexample :
    fishBoard.ideal_wave_range.1 ≤ 2 ∧ (2 : ℚ) ≤ fishBoard.ideal_wave_range.2
    ∧ fishBoard.ideal_period_range.1 ≤ 9 ∧ (9 : ℚ) ≤ fishBoard.ideal_period_range.2
    ∧ resolveConstruction [] (fishBoard.construction.getD "pu") = none
    ∧ (scoreBoard [] 2 9 20 none fishBoard).score ≠ 3 + 2 + (windRule 20).1 := by
  refine ⟨by decide, by decide, by decide, by decide, rfl, ?_⟩
  have h : (scoreBoard [] 2 9 20 none fishBoard).score = 6 := by
    rw [scoreBoard_score]
    norm_num [waveRule, periodRule, windRule, spotRule, constructionRule,
      typeRule, resolveConstruction, lookupKey, fishBoard]
  rw [h, windRule_ge15 20 (by norm_num)]
  norm_num

/-- C1 (amended): a board whose ideal wave-height and period ranges contain
the query values, whose construction triggers none of the construction
bonuses, **and whose board type triggers none of the board-type intrinsic
bonuses**, scores exactly `3 + 2 + wind_bonus` when spot metadata is
absent. -/
theorem full_fit_score_eq (ctable : List (String × Construction)) (b : Board)
    (wave_height period wind_speed : ℚ)
    (hw1 : b.ideal_wave_range.1 ≤ wave_height)
    (hw2 : wave_height ≤ b.ideal_wave_range.2)
    (hp1 : b.ideal_period_range.1 ≤ period)
    (hp2 : period ≤ b.ideal_period_range.2)
    (hcons : ∀ c, resolveConstruction ctable (b.construction.getD "pu") = some c →
      ¬(wave_height < 3 ∧ c.small_wave_performance = some "excellent")
      ∧ ¬(period > 13 ∧ c.powerful_wave_performance = some "excellent")
      ∧ ¬(wave_height < 3 ∧ period < 10 ∧
        (c.paddle_power = some "high" ∨ c.paddle_power = some "excellent"))
      ∧ ¬(period > 12 ∧ (c.flex = some "high" ∨ c.flex = some "medium-high")))
    (htype1 : ¬(b.type = "fish/hybrid" ∧ wave_height < 3))
    (htype2 : ¬(b.type = "performance_shortboard" ∧ period > 12))
    (htype3 : ¬(b.type = "twin_fin" ∧ 3 ≤ wave_height ∧ wave_height ≤ 5)) :
    (scoreBoard ctable wave_height period wind_speed none b).score =
      3 + 2 + (windRule wind_speed).1 := by
  rw [scoreBoard_score, waveRule_in_range b wave_height hw1 hw2,
    periodRule_in_range b period hp1 hp2]
  have hsp : (spotRule b wave_height period none).1 = 0 := rfl
  have hco : (constructionRule (b.construction.getD "pu")
      (resolveConstruction ctable (b.construction.getD "pu"))
      wave_height period).1 = 0 := by
    rcases hres : resolveConstruction ctable (b.construction.getD "pu") with _ | c
    · rfl
    · obtain ⟨h1, h2, h3, h4⟩ := hcons c hres
      exact constructionRule_eq_zero _ c wave_height period h1 h2 h3 h4
  have hty := typeRule_eq_zero b wave_height period htype1 htype2 htype3
  rw [hsp, hco, hty]
  ring

/-- C1 witness: the spec's §8 scenario — `sampleBoard` (2–4 ft / 10–14 s,
"pu" construction) at 3 ft, 12 s, wind 5 scores `3 + 2 + 1 = 6`. -/
theorem full_fit_score_eq_witness :
    (scoreBoard sampleCtable 3 12 5 none sampleBoard).score =
      3 + 2 + (windRule 5).1 :=
  full_fit_score_eq sampleCtable sampleBoard 3 12 5 (by decide) (by decide)
    (by decide) (by decide)
    (fun c hc => by
      have h2 : resolveConstruction sampleCtable
          (sampleBoard.construction.getD "pu") = some defaultPu := rfl
      rw [h2] at hc
      cases hc
      decide)
    (by decide) (by decide) (by decide)

/-- C2 counterexample to the claim as stated: with an empty construction
table (a constructions file that parses to an empty object) the board's key
and the "pu" fallback both miss, and `recommend_board` scores the board
with the absent (empty) construction. -/
theorem construction_resolution_counterexample :
    (scoreBoard [] 2 9 20 none fishBoard).construction_info = none
    ∧ scoreBoard [] 2 9 20 none fishBoard ∈
        recommend_board [fishBoard] [] 2 9 20 none :=
  ⟨rfl, List.mem_mergeSort.mpr (List.mem_map_of_mem _ (List.mem_singleton_self _))⟩

/-- C2 (amended): **provided the construction table has a "pu" entry** (as
the built-in default table does), every board scored by `recommend_board`
resolves to a present construction record — the table entry named by the
board's construction key, or the "pu" entry when that key misses. -/
theorem construction_always_resolves (boards : List Board)
    (ctable : List (String × Construction))
    (wave_height period wind_speed : ℚ) (spot_info : Option Spot)
    (hpu : lookupKey "pu" ctable ≠ none) :
    ∀ r ∈ recommend_board boards ctable wave_height period wind_speed spot_info,
      r.construction_info ≠ none
      ∧ (r.construction_info = lookupKey r.construction_type ctable
        ∨ (lookupKey r.construction_type ctable = none
          ∧ r.construction_info = lookupKey "pu" ctable)) := by
  intro r hr
  rw [recommend_board, List.mem_mergeSort] at hr
  obtain ⟨b, hb, rfl⟩ := List.mem_map.mp hr
  rw [scoreBoard_construction_info, scoreBoard_construction_type]
  unfold resolveConstruction
  rcases lookupKey (b.construction.getD "pu") ctable with _ | c
  · exact ⟨hpu, Or.inr ⟨rfl, rfl⟩⟩
  · exact ⟨by simp, Or.inl rfl⟩

/-- C2 witness: with the sample table (which has a "pu" entry), the sample
board's recommendation carries a present construction record. -/
theorem construction_always_resolves_witness :
    (scoreBoard sampleCtable 3 12 5 none sampleBoard).construction_info ≠ none
    ∧ ((scoreBoard sampleCtable 3 12 5 none sampleBoard).construction_info =
        lookupKey (scoreBoard sampleCtable 3 12 5 none
          sampleBoard).construction_type sampleCtable
      ∨ (lookupKey (scoreBoard sampleCtable 3 12 5 none
            sampleBoard).construction_type sampleCtable = none
        ∧ (scoreBoard sampleCtable 3 12 5 none sampleBoard).construction_info =
            lookupKey "pu" sampleCtable)) :=
  construction_always_resolves [sampleBoard] sampleCtable 3 12 5 none
    (by decide) _
    (List.mem_mergeSort.mpr (List.mem_map_of_mem _ (List.mem_singleton_self _)))

/-- C8: every score assigned by `recommend_board` is non-negative, for every
board in the catalog and every input. -/
theorem recommendation_score_nonneg (boards : List Board)
    (ctable : List (String × Construction))
    (wave_height period wind_speed : ℚ) (spot_info : Option Spot) :
    ∀ r ∈ recommend_board boards ctable wave_height period wind_speed spot_info,
      0 ≤ r.score := by
  intro r hr
  rw [recommend_board, List.mem_mergeSort] at hr
  obtain ⟨b, hb, rfl⟩ := List.mem_map.mp hr
  rw [scoreBoard_score]
  exact add_nonneg (add_nonneg (add_nonneg (add_nonneg (add_nonneg
    (waveRule_fst_nonneg b wave_height) (periodRule_fst_nonneg b period))
    (windRule_fst_nonneg wind_speed))
    (spotRule_fst_nonneg b wave_height period spot_info))
    (constructionRule_fst_nonneg (b.construction.getD "pu")
      (resolveConstruction ctable (b.construction.getD "pu")) wave_height period))
    (typeRule_fst_nonneg b wave_height period)

/-- C8 witness: the sample board's score in the spec scenario is
non-negative. -/
theorem recommendation_score_nonneg_witness :
    0 ≤ (scoreBoard sampleCtable 3 12 5 none sampleBoard).score :=
  recommendation_score_nonneg [sampleBoard] sampleCtable 3 12 5 none _
    (List.mem_mergeSort.mpr (List.mem_map_of_mem _ (List.mem_singleton_self _)))

/-- C10: `recommend_board` returns exactly one recommendation per catalog
board (same length, and every board appears), and every recommendation's
reasoning holds at least three strings (wave, period and wind each append
exactly one on every branch). -/
theorem recommend_board_output_shape (boards : List Board)
    (ctable : List (String × Construction))
    (wave_height period wind_speed : ℚ) (spot_info : Option Spot) :
    (recommend_board boards ctable wave_height period wind_speed
      spot_info).length = boards.length
    ∧ (∀ b ∈ boards,
      ∃ r ∈ recommend_board boards ctable wave_height period wind_speed spot_info,
        r.board = b)
    ∧ (∀ r ∈ recommend_board boards ctable wave_height period wind_speed spot_info,
      3 ≤ r.reasoning.length) := by
  refine ⟨?_, ?_, ?_⟩
  · rw [recommend_board, List.length_mergeSort, List.length_map]
  · intro b hb
    refine ⟨scoreBoard ctable wave_height period wind_speed spot_info b, ?_, rfl⟩
    rw [recommend_board, List.mem_mergeSort]
    exact List.mem_map_of_mem _ hb
  · intro r hr
    rw [recommend_board, List.mem_mergeSort] at hr
    obtain ⟨b, hb, rfl⟩ := List.mem_map.mp hr
    rw [scoreBoard_reasoning, List.length_append, List.length_append,
      List.length_append, List.length_append, List.length_append,
      waveRule_reason_length, periodRule_reason_length, windRule_reason_length]
    omega

/-- C10 witness: a one-board catalog yields one recommendation, whose
reasoning has at least three strings. -/
theorem recommend_board_output_shape_witness :
    (recommend_board [sampleBoard] sampleCtable 3 12 5 none).length =
      [sampleBoard].length
    ∧ 3 ≤ (scoreBoard sampleCtable 3 12 5 none sampleBoard).reasoning.length :=
  ⟨(recommend_board_output_shape [sampleBoard] sampleCtable 3 12 5 none).1,
   (recommend_board_output_shape [sampleBoard] sampleCtable 3 12 5 none).2.2 _
    (List.mem_mergeSort.mpr (List.mem_map_of_mem _ (List.mem_singleton_self _)))⟩

/-- C7: the list returned by `recommend_board` is sorted descending by score
(every earlier entry's score is ≥ every later entry's), and — since the sort
is stable — the entries with any given score appear in the same relative
order as their boards do in the catalog. -/
theorem recommendations_sorted_stable (boards : List Board)
    (ctable : List (String × Construction))
    (wave_height period wind_speed : ℚ) (spot_info : Option Spot) :
    (recommend_board boards ctable wave_height period wind_speed
      spot_info).Pairwise (fun a b => b.score ≤ a.score)
    ∧ ∀ q : ℚ,
      (recommend_board boards ctable wave_height period wind_speed
        spot_info).filter (fun r => decide (r.score = q)) =
      (boards.map (scoreBoard ctable wave_height period wind_speed
        spot_info)).filter (fun r => decide (r.score = q)) := by
  have htrans : ∀ (a b c : Recommendation),
      decide (b.score ≤ a.score) = true → decide (c.score ≤ b.score) = true →
      decide (c.score ≤ a.score) = true := by
    intro a b c hab hbc
    rw [decide_eq_true_eq] at *
    exact le_trans hbc hab
  have htotal : ∀ (a b : Recommendation),
      (decide (b.score ≤ a.score) || decide (a.score ≤ b.score)) = true := by
    intro a b
    rw [Bool.or_eq_true, decide_eq_true_eq, decide_eq_true_eq]
    exact le_total _ _
  constructor
  · rw [recommend_board]
    have hs := List.sorted_mergeSort htrans htotal
      (boards.map (scoreBoard ctable wave_height period wind_speed spot_info))
    exact hs.imp (fun h => of_decide_eq_true h)
  · intro q
    rw [recommend_board]
    have hsubl : List.Sublist
        ((boards.map (scoreBoard ctable wave_height period wind_speed
          spot_info)).filter (fun r => decide (r.score = q)))
        (boards.map (scoreBoard ctable wave_height period wind_speed spot_info)) :=
      List.filter_sublist _
    have hpair : ((boards.map (scoreBoard ctable wave_height period wind_speed
        spot_info)).filter (fun r => decide (r.score = q))).Pairwise
        (fun a b => decide (b.score ≤ a.score) = true) := by
      apply List.pairwise_of_forall_mem_list
      intro a ha b hb
      have ha' := (List.mem_filter.mp ha).2
      have hb' := (List.mem_filter.mp hb).2
      rw [decide_eq_true_eq] at ha' hb'
      rw [decide_eq_true_eq, ha', hb']
    have hsub2 := List.sublist_mergeSort htrans htotal hpair hsubl
    have hidem : ((boards.map (scoreBoard ctable wave_height period wind_speed
        spot_info)).filter (fun r => decide (r.score = q))).filter
        (fun r => decide (r.score = q)) =
        (boards.map (scoreBoard ctable wave_height period wind_speed
          spot_info)).filter (fun r => decide (r.score = q)) :=
      List.filter_eq_self.mpr (fun a ha => (List.mem_filter.mp ha).2)
    have hsub3 := hidem ▸
      (List.Sublist.filter (fun r : Recommendation => decide (r.score = q)) hsub2)
    have hlen := (List.Perm.filter (fun r : Recommendation => decide (r.score = q))
      (List.mergeSort_perm (boards.map (scoreBoard ctable wave_height period
        wind_speed spot_info))
        (fun a b => decide (b.score ≤ a.score)))).length_eq
    exact (List.Sublist.eq_of_length hsub3 hlen.symm).symm

/-- C3 counterexample to the claim as stated: with a well-formed wave
payload, a present wind payload whose wind list is empty makes the whole
parse fail — so failure is not "exactly when the wave payload is missing or
malformed" (the same wave payload parses fine when the wind payload is
absent). -/
theorem parse_conditions_claim_counterexample :
    waveMalformed (some goodWavePayload) = false
    ∧ parse_conditions (some goodWavePayload) (some badWindPayload) none = none
    ∧ parse_conditions (some goodWavePayload) none none ≠ none := by
  refine ⟨rfl, rfl, ?_⟩
  intro h
  exact Option.noConfusion h

/-- C3 (amended): `parse_conditions` returns a record with `wave_height`
the mean of the first wave time-step's surf min/max, `period` the first
swell entry's period (0 when absent), `wind_speed`/`wind_direction` from the
first wind time-step (0 when the wind payload is absent), and `tide` reduced
to "Available"/"N/A"; it fails exactly when the wave payload is missing or
malformed **or a present wind payload is malformed** — an absent wind or
tide payload never causes failure. -/
theorem parse_conditions_spec (wave_data : Option WavePayload)
    (wind_data : Option WindPayload) (tide_data : Option TidePayload) :
    (parse_conditions wave_data wind_data tide_data = none ↔
      (waveMalformed wave_data = true ∨ windMalformed wind_data = true))
    ∧ (∀ wd current_wave rest surf,
      wave_data = some wd → wd.wave = some (current_wave :: rest) →
      current_wave.surf = some surf →
      waveMalformed wave_data = false → windMalformed wind_data = false →
      parse_conditions wave_data wind_data tide_data =
        some { wave_height := (surf.min + surf.max) / 2
               period := firstSwellPeriod current_wave
               wind_speed := firstWindSpeed wind_data
               wind_direction := firstWindDirection wind_data
               tide := tideFlag tide_data }) := by
  constructor
  · rcases wave_data with _ | ⟨_ | (_ | ⟨⟨surfO, swellsO⟩, steps⟩)⟩
    · simp [parse_conditions, waveMalformed]
    · simp [parse_conditions, waveMalformed]
    · simp [parse_conditions, waveMalformed]
    · rcases surfO with _ | surf
      · simp [parse_conditions, waveMalformed]
      · rcases swellsO with _ | (_ | ⟨sw, swl⟩) <;>
          rcases wind_data with _ | ⟨_ | (_ | ⟨cwind, cwl⟩)⟩ <;>
          simp [parse_conditions, waveMalformed, windMalformed]
  · rintro wd current_wave rest surf rfl hwave hsurf hwm hWm
    obtain ⟨waveO⟩ := wd
    simp only at hwave
    subst hwave
    obtain ⟨surfO, swellsO⟩ := current_wave
    simp only at hsurf
    subst hsurf
    rcases swellsO with _ | (_ | ⟨sw, swl⟩)
    · rcases wind_data with _ | ⟨_ | (_ | ⟨cwind, cwl⟩)⟩ <;>
        first
        | rfl
        | (exfalso; simp [windMalformed] at hWm)
    · exfalso
      simp [waveMalformed] at hwm
    · rcases wind_data with _ | ⟨_ | (_ | ⟨cwind, cwl⟩)⟩ <;>
        first
        | rfl
        | (exfalso; simp [windMalformed] at hWm)

/-- C3 witness: a surf range of 2–4 ft with one 12 s swell, absent wind and
a tide payload with data parses to (3 ft, 12 s, wind 0/0, "Available"). -/
theorem parse_conditions_spec_witness :
    parse_conditions (some goodWavePayload) none (some { hasData := true }) =
      some { wave_height := ((2 : ℚ) + 4) / 2
             period := firstSwellPeriod goodWaveStep
             wind_speed := firstWindSpeed none
             wind_direction := firstWindDirection none
             tide := tideFlag (some { hasData := true }) } :=
  (parse_conditions_spec (some goodWavePayload) none
    (some { hasData := true })).2 goodWavePayload goodWaveStep []
    { min := 2, max := 4 } rfl rfl rfl rfl rfl

/-- C9: `get_spot_info` looks the normalized name up in the spot table,
falls back to the raw-lowercase key, and returns the matching record; on a
double miss it returns the not-found signal `none`, and the guidance list
offered on a miss holds at most 10 pairwise-distinct known spot names. -/
theorem get_spot_info_spec (spots : List (String × Spot)) (spot_name : String) :
    (∀ s, lookupKey (normalize_spot_name spot_name) spots = some s →
      get_spot_info spots spot_name = some s)
    ∧ (lookupKey (normalize_spot_name spot_name) spots = none →
      get_spot_info spots spot_name = lookupKey (spot_name.toLower) spots)
    ∧ (lookupKey (normalize_spot_name spot_name) spots = none →
      lookupKey (spot_name.toLower) spots = none →
      get_spot_info spots spot_name = none)
    ∧ (availableSpotNames spots).length ≤ 10
    ∧ (availableSpotNames spots).Nodup
    ∧ (∀ n ∈ availableSpotNames spots, ∃ kv ∈ spots, kv.2.name = n) := by
  refine ⟨?_, ?_, ?_, ?_, ?_, ?_⟩
  · intro s h
    simp [get_spot_info, h]
  · intro h
    simp [get_spot_info, h]
  · intro h1 h2
    simp [get_spot_info, h1, h2]
  · rw [availableSpotNames, List.length_take]
    exact min_le_left _ _
  · exact List.Nodup.sublist (List.take_sublist _ _) (List.nodup_dedup _)
  · intro n hn
    have h1 : n ∈ (spots.map (fun kv => kv.2.name)).dedup :=
      List.mem_of_mem_take hn
    obtain ⟨kv, hkv, rfl⟩ := List.mem_map.mp (List.mem_dedup.mp h1)
    exact ⟨kv, hkv, rfl⟩

/-- C9 witness: "Linda Mar" is found in the sample table under its
normalized key, and a lookup in an empty table returns the not-found
signal. -/
theorem get_spot_info_spec_witness :
    get_spot_info sampleSpots "Linda Mar" = some lindaMar
    ∧ get_spot_info [] "nowhere_beach" = none :=
  ⟨(get_spot_info_spec sampleSpots "Linda Mar").1 lindaMar (by simp [sampleSpots, lookupKey]),
   (get_spot_info_spec [] "nowhere_beach").2.2.1 rfl rfl⟩
